import Mathlib

/-!
# Verification of the CommunityHealthAdvisor agent repository

A shallow embedding of the tool functions and agent configurations of the
repository, together with theorems settling the specification claims.

Conventions of the embedding:
* Python exceptions are modelled by the inductive `PyExn`; a computation that
  can raise is typed `PyResult α` (`ok` = normal return, `exn` = raised).
* Every interaction with the outside world (environment variables, HTTP
  responses, BigQuery, the pgeocode datasets) is an input, collected in the
  `World` structure; one `World` value describes the external behaviour seen
  by one call of a tool function.
* Python `float` values flowing through the tools are modelled exactly, as a
  decimal mantissa/exponent pair (`PyFloat`): the tools perform no float
  arithmetic, they only parse decimal strings and print them back, so exact
  decimal semantics is faithful.
* `str(pydantic_model.model_dump())` serializations are modelled by the
  `pyRepr*` functions below, and `model_dump_json()` by `airQualityJson`.
-/

/-- The kinds of Python exception relevant to the tools: the three exception
classes named in `poverty_agent.py`'s `except` clause, plus `TypeError` and a
catch-all for everything else (e.g. `DefaultCredentialsError` raised by
`bigquery.Client()`). -/
inductive PyExn where
  | requestException (msg : String)
  | valueError (msg : String)
  | indexError (msg : String)
  | typeError (msg : String)
  | otherError (msg : String)
deriving DecidableEq

/-- The message text of an exception, as interpolated by `f"... {e}"`. -/
def PyExn.msg : PyExn → String
  | .requestException m => m
  | .valueError m => m
  | .indexError m => m
  | .typeError m => m
  | .otherError m => m

/-- Result of a Python computation: a value, or a raised exception. -/
inductive PyResult (α : Type) where
  | ok (a : α)
  | exn (e : PyExn)
deriving DecidableEq

/-- Python truthiness of an optional string (`not x` with `x` either `None`
or a `str`): falsy iff `None` or the empty string. -/
def pyFalsyStrOpt : Option String → Bool
  | none => true
  | some s => s.isEmpty

/-- Numeric value of a nonempty list of decimal digit characters; `none` if
empty or a non-digit occurs. -/
def digitCharsVal (cs : List Char) : Option Nat :=
  if cs.isEmpty then none
  else
    cs.foldl
      (fun acc c =>
        acc.bind fun n => if c.isDigit then some (n * 10 + (c.toNat - 48)) else none)
      (some 0)

/-- Python `int(s)` on a string: optional sign followed by digits; `none`
models a raised `ValueError`. -/
def pyInt? (s : String) : Option Int :=
  match s.data with
  | [] => none
  | c :: rest =>
    if c == '-' then (digitCharsVal rest).map fun n => -(n : Int)
    else if c == '+' then (digitCharsVal rest).map fun n => (n : Int)
    else (digitCharsVal (c :: rest)).map fun n => (n : Int)

/-- A Python `float` holding an exactly decimal value, as a decimal mantissa
and exponent: the denoted value is `num / 10 ^ exp`. The tools only ever
create such floats (the `-1.0` sentinel and values parsed from decimal
strings) and never do arithmetic on them. -/
structure PyFloat where
  num : Int
  exp : Nat
deriving DecidableEq

/-- Python `float(s)` on a plain decimal string (optional sign, digits,
optional fractional part); `none` models a raised `ValueError`. Exponent
notation and `inf`/`nan` are not produced by the Census API and are omitted. -/
def pyFloat? (s : String) : Option PyFloat :=
  let core : List Char → Option PyFloat := fun cs =>
    let intPart := cs.takeWhile fun c => c != '.'
    let rest := cs.dropWhile fun c => c != '.'
    match rest with
    | [] => (digitCharsVal intPart).map fun n => PyFloat.mk (n : Int) 0
    | _ :: frac =>
      if frac.any (fun c => c == '.') then none
      else if intPart.isEmpty && frac.isEmpty then none
      else if !intPart.all Char.isDigit || !frac.all Char.isDigit then none
      else
        let ip : Nat := intPart.foldl (fun n c => n * 10 + (c.toNat - 48)) 0
        let fp : Nat := frac.foldl (fun n c => n * 10 + (c.toNat - 48)) 0
        some (PyFloat.mk ((ip * 10 ^ frac.length + fp : Nat) : Int) frac.length)
  match s.data with
  | [] => none
  | c :: rest =>
    if c == '-' then (core rest).map fun f => PyFloat.mk (-f.num) f.exp
    else if c == '+' then core rest
    else core (c :: rest)

/-- The `-1.0` sentinel of `poverty_agent.py`. -/
def pyNegOne : PyFloat := PyFloat.mk (-1) 0

/-- Drop factors of ten shared between a decimal mantissa and its exponent
(the value denoted is unchanged). -/
def trimTens : Nat → Nat → Nat × Nat
  | a, 0 => (a, 0)
  | a, e + 1 => if a % 10 == 0 then trimTens (a / 10) e else (a, e + 1)

/-- Python `repr` of a `PyFloat`: minimal decimal expansion with at least one
fractional digit, e.g. `-1.0`, `12.5`, `0.5`. -/
def pyFloatRepr (f : PyFloat) : String :=
  let (a, k) := trimTens f.num.natAbs f.exp
  let sign := if f.num < 0 then "-" else ""
  if k == 0 then sign ++ toString a ++ ".0"
  else
    let ds := (toString a).data
    let ds := if ds.length ≤ k then List.replicate (k + 1 - ds.length) '0' ++ ds else ds
    sign ++ String.mk (ds.take (ds.length - k)) ++ "." ++ String.mk (ds.drop (ds.length - k))

/-- Python `repr` of a string without quote or escape characters (the only
strings the tools serialize): single-quoted. -/
def pyStrRepr (s : String) : String := "\x27" ++ s ++ "\x27"

/-- Python `dict` insertion on an association list: an existing key keeps its
position and gets the new value, a new key is appended. -/
def dictInsert (d : List (Int × PyFloat)) (k : Int) (v : PyFloat) : List (Int × PyFloat) :=
  if d.any (fun p => p.1 == k) then d.map fun p => if p.1 == k then (k, v) else p
  else d ++ [(k, v)]

/-- Python `dict` lookup on an association list. -/
def dictGet? (d : List (Int × PyFloat)) (k : Int) : Option PyFloat :=
  (d.find? (fun p => p.1 == k)).map fun p => p.2

/-- `str(s).isdigit()` for the strings at hand: nonempty and all decimal
digits. -/
def pyStrIsDigit (s : String) : Bool := !s.isEmpty && s.data.all Char.isDigit

/-- `int(z)` on a string that passed `isdigit()`: the non-negative value. -/
def pyDigitsToInt (s : String) : Int :=
  (s.data.foldl (fun n c => n * 10 + (c.toNat - 48)) 0 : Nat)

/-- `pandas.Series.unique()`: distinct values in order of first appearance. -/
def pandasUnique (xs : List String) : List String :=
  xs.foldl (fun acc x => if x ∈ acc then acc else acc ++ [x]) []

/-- Whether `pat` occurs at the start of `cs`. -/
def listStartsWith : List Char → List Char → Bool
  | [], _ => true
  | _ :: _, [] => false
  | p :: ps, c :: cs => p == c && listStartsWith ps cs

/-- Whether `pat` occurs as a contiguous run inside `cs`. -/
def listHasRun (pat : List Char) : List Char → Bool
  | [] => pat.isEmpty
  | c :: cs => listStartsWith pat (c :: cs) || listHasRun pat cs

/-- Whether `pat` occurs as a substring of `s`. -/
def strContainsSub (s pat : String) : Bool := listHasRun pat.data s.data

/-! ## A JSON parser

The specification describes tool outputs as "parseable as JSON"; the following
is a recursive-descent parser for RFC 8259 JSON texts (complete: it accepts
every valid JSON text, including `\uXXXX` escapes and exponent-form numbers,
and is lenient about leading zeros), used to compare the tools' actual output
strings against that description. Numbers are kept as their lexemes: the
claims under scrutiny concern parseability, not numeric value. -/

/-- JSON values; numbers are stored as their source lexeme. -/
inductive Json where
  | jnull
  | jbool (b : Bool)
  | jnum (lexeme : String)
  | jstr (s : String)
  | jarr (elems : List Json)
  | jobj (members : List (String × Json))

/-- JSON insignificant whitespace. -/
def jsonWs (c : Char) : Bool := c == ' ' || c == '\t' || c == '\n' || c == '\r'

/-- Drop leading JSON whitespace. -/
def skipJsonWs : List Char → List Char
  | [] => []
  | c :: cs => if jsonWs c then skipJsonWs cs else c :: cs

/-- Value of a hexadecimal digit. -/
def hexVal? (c : Char) : Option Nat :=
  let n := c.toNat
  if 48 ≤ n && n ≤ 57 then some (n - 48)
  else if 97 ≤ n && n ≤ 102 then some (n - 87)
  else if 65 ≤ n && n ≤ 70 then some (n - 55)
  else none

/-- The character denoted by a one-character JSON escape. -/
def jsonEscChar? (e : Char) : Option Char :=
  if e == '"' then some '"'
  else if e == '\\' then some '\\'
  else if e == '/' then some '/'
  else if e == 'b' then some (Char.ofNat 8)
  else if e == 'f' then some (Char.ofNat 12)
  else if e == 'n' then some '\n'
  else if e == 'r' then some '\r'
  else if e == 't' then some '\t'
  else none

/-- Parse the body of a JSON string (after the opening quote), returning the
decoded string and the remaining input. -/
def parseJStr : Nat → List Char → Option (String × List Char)
  | 0, _ => none
  | _ + 1, [] => none
  | fuel + 1, c :: cs =>
    if c == '"' then some ("", cs)
    else if c == '\\' then
      match cs with
      | [] => none
      | e :: cs2 =>
        if e == 'u' then
          match cs2 with
          | a :: b :: c3 :: d :: cs3 =>
            match hexVal? a, hexVal? b, hexVal? c3, hexVal? d with
            | some ha, some hb, some hc, some hd =>
              (parseJStr fuel cs3).map fun p =>
                (String.mk (Char.ofNat (((ha * 16 + hb) * 16 + hc) * 16 + hd) :: p.1.data), p.2)
            | _, _, _, _ => none
          | _ => none
        else
          match jsonEscChar? e with
          | some ec => (parseJStr fuel cs2).map fun p => (String.mk (ec :: p.1.data), p.2)
          | none => none
    else (parseJStr fuel cs).map fun p => (String.mk (c :: p.1.data), p.2)

/-- Parse a JSON number lexeme: `-`? digits (`.` digits)? (`e`/`E` sign? digits)?.
A `.` or exponent marker not followed by digits is left unconsumed. -/
def parseJNum (cs : List Char) : Option (String × List Char) :=
  let (sgn, cs1) :=
    match cs with
    | c :: r => if c == '-' then (['-'], r) else (([] : List Char), cs)
    | [] => ([], cs)
  let ds := cs1.takeWhile Char.isDigit
  if ds.isEmpty then none
  else
    let cs2 := cs1.dropWhile Char.isDigit
    let (fr, cs3) :=
      match cs2 with
      | c :: r =>
        if c == '.' then
          let fs := r.takeWhile Char.isDigit
          if fs.isEmpty then (([] : List Char), cs2)
          else ('.' :: fs, r.dropWhile Char.isDigit)
        else ([], cs2)
      | [] => ([], cs2)
    let (ex, cs4) :=
      match cs3 with
      | c :: r =>
        if c == 'e' || c == 'E' then
          let (es, r2) :=
            match r with
            | c2 :: r2 => if c2 == '+' || c2 == '-' then ([c, c2], r2) else ([c], r)
            | [] => ([c], r)
          let xs := r2.takeWhile Char.isDigit
          if xs.isEmpty then (([] : List Char), cs3)
          else (es ++ xs, r2.dropWhile Char.isDigit)
        else ([], cs3)
      | [] => ([], cs3)
    some (String.mk (sgn ++ ds ++ fr ++ ex), cs4)

/-- Parse the members of a JSON object (after its `{` and any whitespace,
first member expected), given a parser `pv` for values. -/
def parseJMembers (pv : List Char → Option (Json × List Char)) :
    Nat → List Char → Option (List (String × Json) × List Char)
  | 0, _ => none
  | fuel + 1, cs =>
    match cs with
    | '"' :: cs2 =>
      match parseJStr (cs2.length + 1) cs2 with
      | none => none
      | some (k, cs3) =>
        match skipJsonWs cs3 with
        | ':' :: cs5 =>
          match pv (skipJsonWs cs5) with
          | none => none
          | some (v, cs6) =>
            match skipJsonWs cs6 with
            | ',' :: cs8 =>
              (parseJMembers pv fuel (skipJsonWs cs8)).map fun p => ((k, v) :: p.1, p.2)
            | c :: cs8 => if c == '\x7d' then some ([(k, v)], cs8) else none
            | [] => none
        | _ => none
    | _ => none

/-- Parse the elements of a JSON array (after its `[` and any whitespace,
first element expected), given a parser `pv` for values. -/
def parseJElems (pv : List Char → Option (Json × List Char)) :
    Nat → List Char → Option (List Json × List Char)
  | 0, _ => none
  | fuel + 1, cs =>
    match pv cs with
    | none => none
    | some (v, cs2) =>
      match skipJsonWs cs2 with
      | ',' :: cs3 => (parseJElems pv fuel (skipJsonWs cs3)).map fun p => (v :: p.1, p.2)
      | ']' :: cs3 => some ([v], cs3)
      | _ => none

/-- Parse one JSON value at the head of the input (whitespace already
skipped). -/
def parseJVal : Nat → List Char → Option (Json × List Char)
  | 0, _ => none
  | _ + 1, [] => none
  | fuel + 1, c :: rest =>
    if c == '\x7b' then
      match skipJsonWs rest with
      | d :: cs2 =>
        if d == '\x7d' then some (.jobj [], cs2)
        else
          (parseJMembers (parseJVal fuel) (d :: cs2).length (d :: cs2)).map fun p =>
            (.jobj p.1, p.2)
      | [] => none
    else if c == '[' then
      match skipJsonWs rest with
      | ']' :: cs2 => some (.jarr [], cs2)
      | cs2 => (parseJElems (parseJVal fuel) cs2.length cs2).map fun p => (.jarr p.1, p.2)
    else if c == '"' then
      (parseJStr (rest.length + 1) rest).map fun p => (.jstr p.1, p.2)
    else if listStartsWith ['t', 'r', 'u', 'e'] (c :: rest) then
      some (.jbool true, rest.drop 3)
    else if listStartsWith ['f', 'a', 'l', 's', 'e'] (c :: rest) then
      some (.jbool false, rest.drop 4)
    else if listStartsWith ['n', 'u', 'l', 'l'] (c :: rest) then
      some (.jnull, rest.drop 3)
    else
      (parseJNum (c :: rest)).map fun p => (.jnum p.1, p.2)

/-- Parse a complete JSON text: one value surrounded by whitespace only. -/
def jsonParse (s : String) : Option Json :=
  match parseJVal (s.data.length + 1) (skipJsonWs s.data) with
  | some (v, rest) => if (skipJsonWs rest).isEmpty then some v else none
  | none => none

/-! ## The external world

A `World` collects everything outside the tool functions that one call can
observe: environment variables, HTTP responses, the pgeocode datasets, the
geopy geocoder and BigQuery. Constructors and queries that can raise are
typed `PyResult`; `exn` there means that external step raised. -/

/-- The JSON body returned by `https://ipinfo.io/json` as used by
`_get_location_from_ip`: its optional `city` and `region` fields. -/
structure IpInfo where
  city : Option String
  region : Option String
deriving DecidableEq

/-- The row returned by `pgeocode.Nominatim.query_postal_code` as used by
`get_air_quality_by_zipcode`: its `empty` flag and coordinates. -/
structure ZipInfo where
  empty : Bool
  latitude : PyFloat
  longitude : PyFloat
deriving DecidableEq

/-- A row of the BigQuery AQI query in `air_quality_agent.py`. -/
structure AqiRow where
  date_local : String
  aqi : Int
  defining_parameter : String
deriving DecidableEq

/-- A row of the BigQuery deployments query in `mobile_clinic_agent.py`. -/
structure DeploymentRow where
  deployment_date : String
  address : String
  zip_code : Int
  services_offered : List String
deriving DecidableEq

/-- The external behaviour observable by one tool-function call. -/
structure World where
  /-- `os.getenv("CENSUS_API_KEY")` (`none` = unset). -/
  censusApiKey : Option String
  /-- Outcome of `requests.get(census url)` + `raise_for_status` + `.json()`:
  the decoded rows (lists of nullable strings), or a raised exception. -/
  censusResponse : PyResult (List (List (Option String)))
  /-- Outcome of `requests.get("https://ipinfo.io/json")` + `.json()`. -/
  ipinfoResponse : PyResult IpInfo
  /-- Outcome of `geopy` `Nominatim.geocode`: the found address (`none` when
  the geocoder finds nothing), or a raised exception. -/
  geocodeResult : PyResult (Option String)
  /-- Outcome of the `pgeocode` `query_location(...)["postal_code"]` column
  read in `location_agent.py` (before `unique()` is applied), or a raised
  exception from `pgeocode.Nominatim(country_code)`/`query_location`. -/
  queryLocationPostalCodes : PyResult (List String)
  /-- Whether `from google.cloud import bigquery` succeeded (`bigquery` is not
  `None`). -/
  bigqueryInstalled : Bool
  /-- Outcome of constructing `pgeocode.Nominatim("us")` in
  `air_quality_agent.py` (downloads its dataset; can raise). -/
  pgeocodeInit : PyResult Unit
  /-- The row `geo.query_postal_code(str(zipcode))`. -/
  zipInfo : ZipInfo
  /-- Outcome of constructing `bigquery.Client()` (raises
  `DefaultCredentialsError` without credentials). -/
  clientInit : PyResult Unit
  /-- Outcome of the AQI BigQuery query: its rows, or a raised exception. -/
  aqiQueryResult : PyResult (List AqiRow)
  /-- Outcome of the deployments BigQuery query. -/
  clinicQueryResult : PyResult (List DeploymentRow)

/-! ## `poverty_agent.py` -/

/-- `str(PovertyLevelsOutput(poverty_levels=d).model_dump())`: the Python
`repr` of `{'poverty_levels': {k1: v1, ...}}`. -/
def pyReprPovertyOutput (d : List (Int × PyFloat)) : String :=
  "\x7b\x27poverty_levels\x27: \x7b" ++
    String.intercalate ", " (d.map fun p => toString p.1 ++ ": " ++ pyFloatRepr p.2) ++
    "\x7d\x7d"

/-- The dict comprehension `{zipcode: -1.0 for zipcode in zipcodes}`. -/
def povertySentinelDict (zipcodes : List Int) : List (Int × PyFloat) :=
  zipcodes.foldl (fun d z => dictInsert d z pyNegOne) []

/-- The dict comprehension
`{int(row[2]): float(row[0]) for row in data[1:] if row[0] is not None}`
applied to `data[1:]`: builds the results dict, aborting with the exception
of the first failing row (`IndexError` from `row[0]`/`row[2]`, `TypeError`
from `int(None)`, `ValueError` from `int`/`float` on a malformed string). -/
def censusParseRows (rows : List (List (Option String))) :
    PyResult (List (Int × PyFloat)) :=
  rows.foldl
    (fun acc row =>
      match acc with
      | .exn e => .exn e
      | .ok d =>
        match row.get? 0 with
        | none => .exn (.indexError "list index out of range")
        | some none => .ok d
        | some (some v0) =>
          match row.get? 2 with
          | none => .exn (.indexError "list index out of range")
          | some none => .exn (.typeError "int() argument must be a string")
          | some (some k2) =>
            match pyInt? k2 with
            | none => .exn (.valueError "invalid literal for int() with base 10")
            | some k =>
              match pyFloat? v0 with
              | none => .exn (.valueError "could not convert string to float")
              | some v => .ok (dictInsert d k v))
    (.ok [])

/-- Which exceptions the `except (requests.RequestException, ValueError,
IndexError)` clause of `get_poverty_levels` catches. -/
def povertyCaught : PyExn → Bool
  | .requestException _ => true
  | .valueError _ => true
  | .indexError _ => true
  | _ => false

/-- The network calls `get_poverty_levels` can make. -/
inductive PovCall where
  | censusGet
deriving DecidableEq

/-- One completed call of `get_poverty_levels`: the returned string, the
network calls made, and the caller's `zipcodes` list object after the call. -/
structure PovertyRun where
  output : String
  calls : List PovCall
  zipcodesAfter : List Int
deriving DecidableEq

/-- The `try` block of `get_poverty_levels`: `requests.get` +
`raise_for_status` + `.json()` (all folded into `censusResponse`), then the
results dict comprehension applied to `data[1:]`. -/
def povertyTryBody (w : World) : PyResult (List (Int × PyFloat)) :=
  match w.censusResponse with
  | .exn e => .exn e
  | .ok data => censusParseRows (data.drop 1)  -- data[1:]

/-- Embedding of `get_poverty_levels(zipcodes)` (poverty_agent.py). -/
def get_poverty_levels (zipcodes : List Int) (w : World) : PyResult PovertyRun :=
  -- api_key = os.getenv("CENSUS_API_KEY"); if not api_key: return sentinel dict
  if pyFalsyStrOpt w.censusApiKey then
    .ok { output := pyReprPovertyOutput (povertySentinelDict zipcodes)
        , calls := []
        , zipcodesAfter := zipcodes }
  else
    -- zip_str = ",".join(...); params = {...}  (read-only uses of zipcodes)
    -- try: response = requests.get(...); response.raise_for_status(); data = response.json()
    match povertyTryBody w with
    | .ok results =>
      .ok { output := pyReprPovertyOutput results
          , calls := [.censusGet]
          , zipcodesAfter := zipcodes }
    | .exn e =>
      if povertyCaught e then
        -- except (...): return str(PovertyLevelsOutput(poverty_levels={}).model_dump())
        .ok { output := pyReprPovertyOutput []
            , calls := [.censusGet]
            , zipcodesAfter := zipcodes }
      else .exn e

/-! ## `location_agent.py` -/

/-- `str(NearestZipcodesOutput(zipcodes=zs).model_dump())`. -/
def pyReprNearestOutput (zs : List Int) : String :=
  "\x7b\x27zipcodes\x27: [" ++ String.intercalate ", " (zs.map toString) ++ "]\x7d"

/-- Embedding of `_get_location_from_ip()` (location_agent.py): formats
`f"{city}, {region}"` from the ipinfo response, returns `None` on a (caught)
`requests.RequestException`, and propagates any other exception (only
`requests.RequestException` is caught there). -/
def get_location_from_ip (w : World) : PyResult (Option String) :=
  match w.ipinfoResponse with
  | .ok d => .ok (some ((d.city.getD "") ++ ", " ++ (d.region.getD "")))
  | .exn e =>
    match e with
    | .requestException _ => .ok none
    | _ => .exn e

/-- The external calls `get_nearest_zipcodes` can make, in order. -/
inductive LocCall where
  | ipLookup
  | geocode (query : Option String)
  | queryLocation (address : String)
deriving DecidableEq

/-- One completed call of `get_nearest_zipcodes`: the zip-code list inside
the returned output, the returned string, and the external calls made. -/
structure NearestRun where
  zipcodes : List Int
  output : String
  calls : List LocCall
deriving DecidableEq

/-- The body of `get_nearest_zipcodes` inside its `try`: the computed
zip-code list, or the first raised exception; paired with the external calls
made up to that point. -/
def nearestBody (location : Option String) (w : World) :
    PyResult (List Int) × List LocCall :=
  -- if not location: location = _get_location_from_ip()
  match
    (if pyFalsyStrOpt location then
      match get_location_from_ip w with
      | .ok l => (PyResult.ok l, [LocCall.ipLookup])
      | .exn e => (PyResult.exn e, [LocCall.ipLookup])
    else (PyResult.ok location, ([] : List LocCall))) with
  | (.exn e, calls) => (.exn e, calls)
  | (.ok loc2, calls) =>
    -- geo_location = geolocator.geocode(location)
    match w.geocodeResult with
    | .exn e => (.exn e, calls ++ [LocCall.geocode loc2])
    | .ok none =>
      -- if not geo_location: return empty output
      (.ok [], calls ++ [LocCall.geocode loc2])
    | .ok (some addr) =>
      -- nearby_places = geo.query_location(geo_location.address, radius=20)
      match w.queryLocationPostalCodes with
      | .exn e => (.exn e, calls ++ [LocCall.geocode loc2, LocCall.queryLocation addr])
      | .ok col =>
        -- zipcodes = [int(z) for z in nearby_places["postal_code"].unique()
        --             if str(z).isdigit()]
        let zipcodes := ((pandasUnique col).filter pyStrIsDigit).map pyDigitsToInt
        -- nearest_five = zipcodes[:5]
        (.ok (zipcodes.take 5),
         calls ++ [LocCall.geocode loc2, LocCall.queryLocation addr])

/-- Embedding of `get_nearest_zipcodes(location, country_code)`
(location_agent.py). The whole body runs under `try ... except Exception`,
so every raised exception is converted to the empty output: the function is
total. -/
def get_nearest_zipcodes (location : Option String) (country_code : Option String)
    (w : World) : NearestRun :=
  match nearestBody location w with
  | (.ok zs, calls) => { zipcodes := zs, output := pyReprNearestOutput zs, calls := calls }
  | (.exn _, calls) => { zipcodes := [], output := pyReprNearestOutput [], calls := calls }

/-! ## `air_quality_agent.py` -/

/-- `AirQualityOutput(...).model_dump_json()`: pydantic's compact JSON. -/
def airQualityJson (r : AqiRow) : String :=
  "\x7b\"aqi\":" ++ toString r.aqi ++ ",\"reporting_date\":\"" ++ r.date_local ++
    "\",\"defining_parameter\":\"" ++ r.defining_parameter ++ "\"\x7d"

/-- Embedding of `get_air_quality_by_zipcode(zipcode)` (air_quality_agent.py).
`pgeocode.Nominatim("us")` and `bigquery.Client()` run before the `try`
block, so their exceptions propagate; only the query itself is guarded by
`except Exception as e`. -/
def get_air_quality_by_zipcode (zipcode : Int) (w : World) : PyResult String :=
  -- if not bigquery: return "BigQuery client is not installed. ..."
  if !w.bigqueryInstalled then
    .ok "BigQuery client is not installed. Please install \x27google-cloud-bigquery\x27."
  else
    -- geo = pgeocode.Nominatim("us")   (outside the try block)
    match w.pgeocodeInit with
    | .exn e => .exn e
    | .ok () =>
      -- zip_info = geo.query_postal_code(str(zipcode)); if zip_info.empty: ...
      if w.zipInfo.empty then
        .ok ("Could not find location for zip code: " ++ toString zipcode)
      else
        -- lat, lon = zip_info.latitude, zip_info.longitude
        -- client = bigquery.Client()   (outside the try block)
        match w.clientInit with
        | .exn e => .exn e
        | .ok () =>
          -- try: query_job = client.query(query, job_config=job_config); ...
          match w.aqiQueryResult with
          | .exn e => .ok ("An error occurred while querying BigQuery: " ++ e.msg)
          | .ok results =>
            match results with
            | [] =>
              .ok ("No AQI data found for the nearest station to zip code " ++
                toString zipcode ++ ".")
            | row :: _ => .ok (airQualityJson row)

/-! ## `mobile_clinic_agent.py` -/

/-- `str(ClinicDeploymentsOutput(deployments=rows).model_dump())`. -/
def pyReprDeployment (r : DeploymentRow) : String :=
  "\x7b\x27deployment_date\x27: " ++ pyStrRepr r.deployment_date ++
    ", \x27address\x27: " ++ pyStrRepr r.address ++
    ", \x27zip_code\x27: " ++ toString r.zip_code ++
    ", \x27services_offered\x27: [" ++
    String.intercalate ", " (r.services_offered.map pyStrRepr) ++ "]\x7d"

/-- `str(ClinicDeploymentsOutput(deployments=rows).model_dump())`. -/
def pyReprClinicOutput (rows : List DeploymentRow) : String :=
  "\x7b\x27deployments\x27: [" ++
    String.intercalate ", " (rows.map pyReprDeployment) ++ "]\x7d"

/-- One completed call of `get_mobile_clinic_deployments`. -/
structure MobileRun where
  output : String
  zipcodesAfter : List Int
deriving DecidableEq

/-- Embedding of `get_mobile_clinic_deployments(zipcodes)`
(mobile_clinic_agent.py). `bigquery.Client()` runs before the `try` block,
so its exceptions propagate; the query is guarded by `except Exception`. -/
def get_mobile_clinic_deployments (zipcodes : List Int) (w : World) :
    PyResult MobileRun :=
  if !w.bigqueryInstalled then
    .ok { output := "BigQuery client is not installed. Please install \x27google-cloud-bigquery\x27."
        , zipcodesAfter := zipcodes }
  else
    -- client = bigquery.Client()   (outside the try block)
    match w.clientInit with
    | .exn e => .exn e
    | .ok () =>
      match w.clinicQueryResult with
      | .exn e =>
        .ok { output := "An error occurred while querying BigQuery: " ++ e.msg
            , zipcodesAfter := zipcodes }
      | .ok rows =>
        .ok { output := pyReprClinicOutput rows, zipcodesAfter := zipcodes }

/-! ## Agent configurations (`insights_agent` pipelines)

The agents themselves are declarative configurations interpreted by the
external ADK runtime; the embedding records the fields the claims are about:
`name`, `instruction` and `output_key`. The `model` field (read from the
`MODEL` environment variable), `description`, `tools` and `output_schema`
carry no claim-relevant structure and are omitted. Instruction strings are
transcribed verbatim; `\x7b`/`\x7d` are the brace characters and `\x27` the
apostrophe. -/

/-- A `google.adk.agents.Agent` configuration (the claim-relevant fields). -/
structure AdkAgent where
  name : String
  instruction : String
  output_key : Option String
deriving DecidableEq

/-- A `google.adk.agents.SequentialAgent` configuration. -/
structure AdkSequentialAgent where
  name : String
  sub_agents : List AdkAgent
deriving DecidableEq

namespace InsightsTop

/-! Embedding of `src/insights_agent/agent.py`. -/

/-- `data_structuring_agent` of `insights_agent/agent.py`. -/
def data_structuring_agent : AdkAgent :=
  { name := "data_structuring_agent"
  , instruction := "You are a data structuring specialist for a public health organization.\n        Analyze the unstructured health data provided in the \x27\x7bunstructured_health_data\x7d\x27 state variable.\n        Your goal is to extract key health issues and any mentioned zip codes. The issues can be wide-ranging.\n        Examples of signals to look for include, but are not limited to:\n        - Healthcare Access issues (e.g., underserved areas, uninsured populations, lack of clinics)\n        - Environmental Risks (e.g., pollution, air/water quality, heatwaves)\n        - Disease Outbreaks (e.g., flu clusters, infectious disease signals)\n        - Emerging Crises (e.g., ER surges, public safety alerts)\n        Your output MUST be a JSON object that conforms to the following schema:\n        \x7b\n            \"identified_issues\": [\"issue1\", \"issue2\"],\n            \"affected_locations\": [\"zip1\", \"zip2\"]\n        \x7d\n        Respond ONLY with the JSON object."
  , output_key := some "structured_analysis" }

/-- `researcher_agent` of `insights_agent/agent.py`. -/
def researcher_agent : AdkAgent :=
  { name := "researcher_agent"
  , instruction := "You are a research assistant for a public health organization.\n        Based on the structured analysis provided in the \x27\x7bstructured_analysis\x7d\x27 state variable,\n        your task is to find relevant, localized context.\n        For each issue in \x27structured_analysis.identified_issues\x27, perform a Google search.\n        If \x27structured_analysis.affected_locations\x27 is not empty, combine the issue with the primary location to get localized results.\n        If no locations are available, search for the issue more broadly.\n        For example, if the issue is \x27Disease Outbreak\x27 and the location is \x2790210\x27, search for \x27Disease Outbreak 90210\x27.\n        Your goal is to find recent news, official reports, or community discussions about this specific issue in that area.\n        "
  , output_key := some "research_findings" }

/-- `insights_creator_agent` of `insights_agent/agent.py` (it has an
`output_schema` but no `output_key`). -/
def insights_creator_agent : AdkAgent :=
  { name := "insights_creator_agent"
  , instruction := "You are a public health analyst creating actionable intelligence for a crisis response system.\n        Your task is to synthesize the structured data and research findings into a final JSON object.\n        This object must conform to the ActionableInsight schema.\n        1.  **Summary**: Write a concise, human-readable summary of the problem, affected areas, and primary needs, incorporating the research findings.\n        2.  **Problem Type**: Categorize the main issue into a clear, high-level category. Use your best judgment. Examples include:\n            - \x27HEALTHCARE_ACCESS\x27 (for issues of unequal access, or related to uninsured/low-income populations)\n            - \x27ENVIRONMENTAL_RISK\x27 (for issues related to pollution, air/water quality, or heat)\n            - \x27DISEASE_OUTBREAK\x27 (for disease clusters and early warning signals)\n            - \x27EMERGING_CRISIS\x27 (for urgent events like ER surges or public safety alerts)\n            - \x27GENERAL_HEALTH_CONCERN\x27 (if it does not fit other categories but is still a public health issue)\n        3.  **Recommended Action**: Propose a single, concrete, and actionable next step for a health organization. For example: \x27Recommend deploying a mobile health unit to zip code 90210\x27 or \x27Alert local health department about a potential flu cluster in 33101\x27.\n\n        Structured Data: \x7bstructured_analysis\x7d\n        Research Findings: \x7bresearch_findings\x7d\n        "
  , output_key := none }

/-- `insights_agent = SequentialAgent(name="health_insights_pipeline", ...)`
of `insights_agent/agent.py`. -/
def insights_agent : AdkSequentialAgent :=
  { name := "health_insights_pipeline"
  , sub_agents := [data_structuring_agent, researcher_agent, insights_creator_agent] }

end InsightsTop

namespace HealthAdvisorInsights

/-! Embedding of
`src/multi-agent-lab-example/health_advisor_agent/insights_agent.py`. -/

/-- `data_structuring_agent` of `health_advisor_agent/insights_agent.py`. -/
def data_structuring_agent : AdkAgent :=
  { name := "data_structuring_agent"
  , instruction := "You are a data structuring specialist for a public health organization.\n        Analyze the unstructured health data provided in the \x27\x7bunstructured_health_data\x7d\x27 state variable.\n        Your goal is to extract key health issues and link them to the specific locations mentioned in relation to them.\n        A location can be a zip code, a neighborhood, a district, or a general area (e.g., \"downtown\", \"Northside\", \"the industrial park\").\n        The issues can be wide-ranging.\n        Examples of signals to look for include, but are not limited to:\n        - Healthcare Access issues (e.g., underserved areas, uninsured populations, lack of clinics)\n        - Environmental Risks (e.g., pollution, air/water quality, heatwaves)\n        - Disease Outbreaks (e.g., flu clusters, infectious disease signals)\n        - Emerging Crises (e.g., ER surges, public safety alerts)\n        Your output MUST be a JSON object that conforms to the HealthAnalysis schema. For each distinct issue, create a HealthEvent object containing the issue and a list of all locations associated with it.\n        Example output format:\n        \x7b\n            \"health_events\": [\n                \x7b\"issue\": \"flu outbreak\", \"locations\": [\"90210\", \"90211\"]\x7d,\n                \x7b\"issue\": \"air quality concerns\", \"locations\": [\"downtown\", \"the industrial park\"]\x7d\n            ]\n        \x7d\n        Respond ONLY with the JSON object."
  , output_key := some "structured_analysis" }

/-- `researcher_agent` of `health_advisor_agent/insights_agent.py`. -/
def researcher_agent : AdkAgent :=
  { name := "researcher_agent"
  , instruction := "You are a research assistant for a public health organization.\n        Based on the structured analysis provided in the \x27\x7bstructured_analysis\x7d\x27 state variable,\n        your task is to find relevant, localized context for each health event.\n        Iterate through each event in \x27structured_analysis.health_events\x27. For each event, perform a targeted Google search\n        combining the \x27issue\x27 with each \x27location\x27 in its \x27locations\x27 list.\n        For example, if an event is \x60\x7b\"issue\": \"flu outbreak\", \"locations\": [\"90210\", \"90211\"]\x7d\x60, you should search for \"flu outbreak 90210\" and \"flu outbreak 90211\".\n        Your goal is to find recent news, official reports, or community discussions about this specific issue in that area.\n        "
  , output_key := some "research_findings" }

/-- `insights_creator_agent` of `health_advisor_agent/insights_agent.py`
(it has an `output_schema` but no `output_key`). -/
def insights_creator_agent : AdkAgent :=
  { name := "insights_creator_agent"
  , instruction := "You are a public health analyst creating actionable intelligence for a crisis response system.\n        Your task is to synthesize the structured data and research findings into a final JSON object.\n        This object must conform to the ActionableInsight schema.\n        1.  **Summary**: Write a concise, human-readable summary of the problem, affected areas, and primary needs, incorporating the research findings.\n        2.  **Problem Type**: Categorize the main issue into a clear, high-level category. Use your best judgment. Examples include:\n            - \x27HEALTHCARE_ACCESS\x27 (for issues of unequal access, or related to uninsured/low-income populations)\n            - \x27ENVIRONMENTAL_RISK\x27 (for issues related to pollution, air/water quality, or heat)\n            - \x27DISEASE_OUTBREAK\x27 (for disease clusters and early warning signals)\n            - \x27EMERGING_CRISIS\x27 (for urgent events like ER surges or public safety alerts)\n            - \x27GENERAL_HEALTH_CONCERN\x27 (if it does not fit other categories but is still a public health issue)\n        3.  **Recommended Action**: Propose a single, concrete, and actionable next step for a health organization. For example: \x27Recommend deploying a mobile health unit to zip code 90210\x27 or \x27Alert local health department about a potential flu cluster in 33101\x27.\n\n        Structured Data: \x7bstructured_analysis\x7d\n        Research Findings: \x7bresearch_findings\x7d\n        "
  , output_key := none }

/-- `insights_agent = SequentialAgent(name="health_insights_pipeline", ...)`
of `health_advisor_agent/insights_agent.py`. -/
def insights_agent : AdkSequentialAgent :=
  { name := "health_insights_pipeline"
  , sub_agents := [data_structuring_agent, researcher_agent, insights_creator_agent] }

end HealthAdvisorInsights

/-! ## `root_agent.py` file content

`health_advisor_agent/root_agent.py` cannot be embedded as a function: the
file contains unresolved git merge-conflict markers and is not valid Python.
Its `tools=[...]` region (lines 33-55) is embedded verbatim as data. -/

/-- Lines 33-55 of `health_advisor_agent/root_agent.py`, verbatim. -/
def rootAgentToolsLines : List String :=
  [ "    tools=["
  , "<<<<<<< HEAD"
  , "<<<<<<< HEAD"
  , "        AgentTool(insights_agent),"
  , "        AgentTool(data_agent),"
  , "        AgentTool(location_agent),"
  , "        AgentTool(poverty_agent),"
  , "        AgentTool(mobile_clinic_agent),"
  , "======="
  , "======="
  , ">>>>>>> f2ab09bd7ecf1b7643993a8f3449f0a00e593351"
  , "        agent_tool.AgentTool(agent=insights_agent),"
  , "        agent_tool.AgentTool(agent=data_agent),"
  , "        agent_tool.AgentTool(agent=insights_agent),"
  , "        agent_tool.AgentTool(agent=location_agent),"
  , "        agent_tool.AgentTool(agent=poverty_agent),"
  , "        agent_tool.AgentTool(agent=mobile_clinic_agent),"
  , "        agent_tool.AgentTool(agent=air_quality_agent)"
  , "<<<<<<< HEAD"
  , ">>>>>>> f2ab09bd7ecf1b7643993a8f3449f0a00e593351"
  , "======="
  , ">>>>>>> f2ab09bd7ecf1b7643993a8f3449f0a00e593351"
  , "    ],"
  ]

/-- Whether a chunk of source text contains all three kinds of unresolved
git merge-conflict marker line. -/
def hasMergeConflictMarkers (lines : List String) : Bool :=
  lines.any (fun l => strContainsSub l "<<<<<<< ") &&
  lines.any (fun l => l == "=======") &&
  lines.any (fun l => strContainsSub l ">>>>>>> ")

/-- Modelled from the spec: CPython's parser is not part of this repository;
per the claim, a Python module containing an unresolved merge-conflict marker
at the start of a line is not syntactically valid (`<<<<<<<`/`>>>>>>>`/a bare
`=======` cannot begin a Python statement), so importing it raises
`SyntaxError`. -/
def pythonModuleSyntaxOk (lines : List String) : Bool :=
  !(lines.any fun l =>
      listStartsWith "<<<<<<< ".data l.data ||
      l == "=======" ||
      listStartsWith ">>>>>>> ".data l.data)

/-- How many of the lines contain the given pattern. -/
def countLinesContaining (lines : List String) (pat : String) : Nat :=
  (lines.filter fun l => strContainsSub l pat).length

/-! ## Concrete worlds used in witnesses and counterexamples -/

/-- A benign world: no Census key, all external services answer without
raising, the geocoder finds nothing. -/
def worldBase : World :=
  { censusApiKey := none
  , censusResponse := .ok []
  , ipinfoResponse := .ok { city := none, region := none }
  , geocodeResult := .ok none
  , queryLocationPostalCodes := .ok []
  , bigqueryInstalled := true
  , pgeocodeInit := .ok ()
  , zipInfo := { empty := false, latitude := ⟨0, 0⟩, longitude := ⟨0, 0⟩ }
  , clientInit := .ok ()
  , aqiQueryResult := .ok []
  , clinicQueryResult := .ok [] }

/-! ## Dictionary lemmas for the sentinel comprehension -/

/-- `dictInsert` with value `v` keeps the all-values-are-`v` invariant. -/
theorem dictInsert_values (d : List (Int × PyFloat)) (k : Int) (v : PyFloat)
    (hd : ∀ p ∈ d, p.2 = v) : ∀ p ∈ dictInsert d k v, p.2 = v := by
  intro p hp
  unfold dictInsert at hp
  split at hp
  · rcases List.mem_map.mp hp with ⟨q, hq, hpq⟩
    by_cases h : q.1 == k
    · simp only [h, if_true] at hpq
      rw [← hpq]
    · simp only [h, if_neg, Bool.false_eq_true, if_false] at hpq
      rw [← hpq]; exact hd q hq
  · rcases List.mem_append.mp hp with h | h
    · exact hd p h
    · simp only [List.mem_singleton] at h
      rw [h]

/-- After `dictInsert d k v`, some entry has key `k`. -/
theorem dictInsert_hasKey_self (d : List (Int × PyFloat)) (k : Int) (v : PyFloat) :
    ∃ p ∈ dictInsert d k v, p.1 = k := by
  unfold dictInsert
  split
  · rename_i h
    rcases List.any_eq_true.mp h with ⟨q, hq, hqk⟩
    exact ⟨(k, v), List.mem_map.mpr ⟨q, hq, by simp [hqk]⟩, rfl⟩
  · exact ⟨(k, v), List.mem_append.mpr (Or.inr (by simp)), rfl⟩

/-- `dictInsert` preserves presence of any key. -/
theorem dictInsert_hasKey_mono (d : List (Int × PyFloat)) (k : Int) (v : PyFloat)
    (x : Int) (h : ∃ p ∈ d, p.1 = x) : ∃ p ∈ dictInsert d k v, p.1 = x := by
  rcases h with ⟨q, hq, hqx⟩
  unfold dictInsert
  split
  · by_cases hqk : q.1 == k
    · have hxk : x = k := by rw [← hqx]; exact beq_iff_eq.mp hqk
      exact ⟨(k, v), List.mem_map.mpr ⟨q, hq, by simp [hqk]⟩, hxk.symm⟩
    · exact ⟨q, List.mem_map.mpr ⟨q, hq, by simp [hqk]⟩, hqx⟩
  · exact ⟨q, List.mem_append.mpr (Or.inl hq), hqx⟩

/-- Every value in the sentinel fold is `pyNegOne`. -/
theorem sentinel_fold_values (zs : List Int) (d : List (Int × PyFloat))
    (hd : ∀ p ∈ d, p.2 = pyNegOne) :
    ∀ p ∈ zs.foldl (fun d z => dictInsert d z pyNegOne) d, p.2 = pyNegOne := by
  induction zs generalizing d with
  | nil => exact hd
  | cons a zs ih => exact ih _ (dictInsert_values d a pyNegOne hd)

/-- Every zip code folded in (or already present) appears among the keys. -/
theorem sentinel_fold_hasKey (zs : List Int) (d : List (Int × PyFloat)) (z : Int)
    (h : z ∈ zs ∨ ∃ p ∈ d, p.1 = z) :
    ∃ p ∈ zs.foldl (fun d z => dictInsert d z pyNegOne) d, p.1 = z := by
  induction zs generalizing d with
  | nil =>
    rcases h with h | h
    · cases h
    · exact h
  | cons a zs ih =>
    simp only [List.foldl_cons]
    rcases h with h | h
    · rcases List.mem_cons.mp h with rfl | hz
      · exact ih _ (Or.inr (dictInsert_hasKey_self d z pyNegOne))
      · exact ih _ (Or.inl hz)
    · exact ih _ (Or.inr (dictInsert_hasKey_mono d a pyNegOne z h))

/-- Looking up any input zip code in the sentinel dict yields `-1.0`. -/
theorem povertySentinelDict_get (zs : List Int) (z : Int) (h : z ∈ zs) :
    dictGet? (povertySentinelDict zs) z = some pyNegOne := by
  have hk := sentinel_fold_hasKey zs [] z (Or.inl h)
  have hv := sentinel_fold_values zs [] (by simp)
  rcases hk with ⟨p, hp, hpz⟩
  have hs : ((povertySentinelDict zs).find? fun q => q.1 == z).isSome := by
    rw [List.find?_isSome]
    exact ⟨p, hp, by simp [hpz]⟩
  rcases Option.isSome_iff_exists.mp hs with ⟨q, hq⟩
  have hqmem := List.mem_of_find?_eq_some hq
  unfold dictGet?
  rw [hq]
  simp [hv q hqmem]

/-! ## Claim C1 -/

/-- C1: for every zip-code list, if the `CENSUS_API_KEY` environment variable
is absent, `get_poverty_levels` returns (does not raise) the serialized
`PovertyLevelsOutput` whose `poverty_levels` dict maps each input zip code to
the sentinel `-1.0`, and makes no network call. -/
theorem C1_sentinel_on_missing_census_key (zipcodes : List Int) (w : World)
    (h : w.censusApiKey = none) :
    get_poverty_levels zipcodes w =
      .ok { output := pyReprPovertyOutput (povertySentinelDict zipcodes)
          , calls := []
          , zipcodesAfter := zipcodes } ∧
    ∀ z ∈ zipcodes, dictGet? (povertySentinelDict zipcodes) z = some pyNegOne := by
  constructor
  · unfold get_poverty_levels
    rw [h]
    rfl
  · intro z hz
    exact povertySentinelDict_get zipcodes z hz

/-- Witness for C1 at a concrete input: the key is absent in `worldBase` and
the call returns the sentinel output with no network call. -/
theorem C1_sentinel_on_missing_census_key_witness :
    get_poverty_levels [90210, 10001] worldBase =
      .ok { output := pyReprPovertyOutput (povertySentinelDict [90210, 10001])
          , calls := []
          , zipcodesAfter := [90210, 10001] } :=
  (C1_sentinel_on_missing_census_key [90210, 10001] worldBase rfl).1

/-! ## Claim C10 -/

/-- C10: the `tools=[...]` region of `health_advisor_agent/root_agent.py`
contains all three kinds of unresolved git merge-conflict marker, is
therefore not syntactically valid Python (per the spec-modelled
`pythonModuleSyntaxOk`, importing raises `SyntaxError` and `root_agent` is
never constructed), and its tool wiring lists `insights_agent` twice. -/
theorem C10_root_agent_merge_conflict :
    hasMergeConflictMarkers rootAgentToolsLines = true ∧
    pythonModuleSyntaxOk rootAgentToolsLines = false ∧
    countLinesContaining rootAgentToolsLines "agent_tool.AgentTool(agent=insights_agent)" = 2 := by
  decide

/-! ## Claim C2: counterexample -/

/-- A world in which `bigquery.Client()` raises (no application-default
credentials); everything else answers normally. -/
def worldNoCreds : World :=
  { worldBase with
      clientInit := .exn (.otherError "Could not automatically determine credentials") }

/-- Counterexample to C2 as stated: `get_air_quality_by_zipcode` constructs
`bigquery.Client()` before its `try` block, so the credentials failure
propagates to the caller as a raised exception instead of being converted to
a string or sentinel. -/
theorem C2_never_propagates_counterexample :
    get_air_quality_by_zipcode 90210 worldNoCreds =
      .exn (.otherError "Could not automatically determine credentials") := by
  decide

/-! ## Claim C3: counterexample -/

/-- Counterexample to C3 as stated: with the Census key absent, the
successful return value of `get_poverty_levels` is the Python `repr` string
`{'poverty_levels': {90210: -1.0}}`, which is not parseable as JSON (single
quotes and an integer object key). -/
theorem C3_json_output_counterexample :
    get_poverty_levels [90210] worldBase =
      .ok { output := "\x7b\x27poverty_levels\x27: \x7b90210: -1.0\x7d\x7d"
          , calls := []
          , zipcodesAfter := [90210] } ∧
    (jsonParse "\x7b\x27poverty_levels\x27: \x7b90210: -1.0\x7d\x7d").isSome = false := by
  constructor
  · decide
  · decide

/-! ## Claim C5: counterexample -/

/-- A world in which the Census key is set and the Census API answers with a
poverty rate of 12.5 % for ZCTA 90210. -/
def worldWithCensus : World :=
  { worldBase with
      censusApiKey := some "K"
    , censusResponse := .ok
        [ [some "DP03_0119PE", some "state", some "zip code tabulation area"]
        , [some "12.5", some "06", some "90210"] ] }

/-- Counterexample to C5 as stated: two runs of `get_poverty_levels` with the
identical argument `[90210]` return different results in two environments
(key absent vs key present with a Census response), so the result does not
depend only on the arguments. -/
theorem C5_pure_function_counterexample :
    get_poverty_levels [90210] worldBase ≠ get_poverty_levels [90210] worldWithCensus := by
  decide

/-! ## Claim C9: counterexample -/

/-- A world in which the postal-code column holds the two distinct strings
`"07"` and `"7"`, both of which `int()` maps to `7`. -/
def worldLeadingZero : World :=
  { worldBase with
      geocodeResult := .ok (some "Anytown, USA")
    , queryLocationPostalCodes := .ok ["07", "7"] }

/-- Counterexample to C9 as stated: `unique()` deduplicates the postal-code
strings, but `int()` collapses `"07"` and `"7"` to the same integer, so the
returned list can contain duplicates. -/
theorem C9_no_duplicates_counterexample :
    (get_nearest_zipcodes (some "Anytown") (some "us") worldLeadingZero).zipcodes = [7, 7] ∧
    ¬ (get_nearest_zipcodes (some "Anytown") (some "us") worldLeadingZero).zipcodes.Nodup := by
  constructor
  · decide
  · decide

/-! ## Claim C4 -/

/-- The calls recorded by `get_nearest_zipcodes` are exactly those of its
body (the `except Exception` handler makes no further calls). -/
theorem get_nearest_zipcodes_calls (location country_code : Option String) (w : World) :
    (get_nearest_zipcodes location country_code w).calls = (nearestBody location w).2 := by
  unfold get_nearest_zipcodes
  rcases nearestBody location w with ⟨res, calls⟩
  cases res <;> rfl

/-- C4: `get_nearest_zipcodes` falls back to `_get_location_from_ip` exactly
when no usable `location` argument is given (`None` or empty): in that case
the IP lookup is the first external call, and any geocoding that follows uses
the IP-inferred location; when a nonempty location argument is given, the IP
service is never consulted. -/
theorem C4_ip_fallback (location country_code : Option String) (w : World) :
    (pyFalsyStrOpt location = true →
      (get_nearest_zipcodes location country_code w).calls.head? = some LocCall.ipLookup ∧
      ∀ q, LocCall.geocode q ∈ (get_nearest_zipcodes location country_code w).calls →
        get_location_from_ip w = .ok q) ∧
    (pyFalsyStrOpt location = false →
      LocCall.ipLookup ∉ (get_nearest_zipcodes location country_code w).calls) := by
  constructor
  · intro hf
    rw [get_nearest_zipcodes_calls]
    unfold nearestBody
    rw [hf]
    simp only [if_true]
    cases hip : get_location_from_ip w with
    | ok l =>
      cases w.geocodeResult with
      | ok r =>
        cases r with
        | none =>
          refine ⟨rfl, ?_⟩
          intro q hq
          simp_all
        | some addr =>
          cases w.queryLocationPostalCodes with
          | ok col =>
            refine ⟨rfl, ?_⟩
            intro q hq
            simp_all
          | exn e =>
            refine ⟨rfl, ?_⟩
            intro q hq
            simp_all
      | exn e =>
        refine ⟨rfl, ?_⟩
        intro q hq
        simp_all
    | exn e =>
      refine ⟨rfl, ?_⟩
      intro q hq
      simp_all
  · intro hf
    rw [get_nearest_zipcodes_calls]
    unfold nearestBody
    rw [hf]
    simp only [Bool.false_eq_true, if_false]
    cases w.geocodeResult with
    | ok r =>
      cases r with
      | none => simp
      | some addr =>
        cases w.queryLocationPostalCodes with
        | ok col => simp
        | exn e => simp
    | exn e => simp

/-- Witness for C4 at a concrete input: with no location argument, the IP
lookup is the first external call. -/
theorem C4_ip_fallback_witness :
    (get_nearest_zipcodes none (some "us") worldBase).calls.head? = some LocCall.ipLookup :=
  ((C4_ip_fallback none (some "us") worldBase).1 rfl).1

/-! ## Claim C9: amended -/

/-- The fold underlying `pandasUnique` keeps the accumulator duplicate-free. -/
theorem pandasUnique_fold_nodup (xs : List String) (acc : List String)
    (h : acc.Nodup) :
    (xs.foldl (fun acc x => if x ∈ acc then acc else acc ++ [x]) acc).Nodup := by
  induction xs generalizing acc with
  | nil => exact h
  | cons a xs ih =>
    simp only [List.foldl_cons]
    by_cases ha : a ∈ acc
    · rw [if_pos ha]
      exact ih acc h
    · rw [if_neg ha]
      refine ih _ (List.nodup_append.mpr ⟨h, List.nodup_singleton a, ?_⟩)
      intro b hb hb'
      simp only [List.mem_singleton] at hb'
      rw [hb'] at hb
      exact ha hb

/-- `pandasUnique` produces a duplicate-free list. -/
theorem pandasUnique_nodup (xs : List String) : (pandasUnique xs).Nodup :=
  pandasUnique_fold_nodup xs [] List.nodup_nil

/-- `int()` on a digit string is non-negative. -/
theorem pyDigitsToInt_nonneg (s : String) : 0 ≤ pyDigitsToInt s :=
  Int.natCast_nonneg _

/-- The zip-code list of any `get_nearest_zipcodes` run is either empty or
`take 5` of the integer conversions of the deduplicated digit-strings of the
postal-code column. -/
theorem get_nearest_zipcodes_zip_shape (location country_code : Option String)
    (w : World) :
    (get_nearest_zipcodes location country_code w).zipcodes = [] ∨
    ∃ col, w.queryLocationPostalCodes = .ok col ∧
      (get_nearest_zipcodes location country_code w).zipcodes =
        (((pandasUnique col).filter pyStrIsDigit).map pyDigitsToInt).take 5 := by
  unfold get_nearest_zipcodes nearestBody
  cases hip :
      (if pyFalsyStrOpt location then
        match get_location_from_ip w with
        | .ok l => (PyResult.ok l, [LocCall.ipLookup])
        | .exn e => (PyResult.exn e, [LocCall.ipLookup])
      else (PyResult.ok location, ([] : List LocCall))) with
  | mk res calls =>
    cases res with
    | exn e => left; rfl
    | ok loc2 =>
      cases w.geocodeResult with
      | exn e => left; rfl
      | ok r =>
        cases r with
        | none => left; rfl
        | some addr =>
          cases hq : w.queryLocationPostalCodes with
          | exn e => left; rfl
          | ok col => right; exact ⟨col, rfl, rfl⟩

/-- If the geocoder finds nothing, the run returns the empty zip list. -/
theorem get_nearest_zipcodes_geocode_none (location country_code : Option String)
    (w : World) (h : w.geocodeResult = .ok none) :
    (get_nearest_zipcodes location country_code w).zipcodes = [] := by
  unfold get_nearest_zipcodes nearestBody
  rw [h]
  cases hip :
      (if pyFalsyStrOpt location then
        match get_location_from_ip w with
        | .ok l => (PyResult.ok l, [LocCall.ipLookup])
        | .exn e => (PyResult.exn e, [LocCall.ipLookup])
      else (PyResult.ok location, ([] : List LocCall))) with
  | mk res calls => cases res <;> rfl

/-- C9 (amended): `get_nearest_zipcodes` never raises (it is a total
function of its world); its result is `take 5` of the integer conversions of
a duplicate-free list of digit-strings — so it has at most 5 elements, each
non-negative, and the *strings* are distinct, though integer conversion can
identify strings that differ only in leading zeros (see the counterexample);
and a failed geocode yields the empty list. -/
theorem C9_length_nonneg_and_failure (location country_code : Option String)
    (w : World) :
    (∃ ss : List String, ss.Nodup ∧ (∀ s ∈ ss, pyStrIsDigit s = true) ∧
      (get_nearest_zipcodes location country_code w).zipcodes =
        (ss.map pyDigitsToInt).take 5) ∧
    (get_nearest_zipcodes location country_code w).zipcodes.length ≤ 5 ∧
    (∀ z ∈ (get_nearest_zipcodes location country_code w).zipcodes, 0 ≤ z) ∧
    (w.geocodeResult = .ok none →
      (get_nearest_zipcodes location country_code w).zipcodes = []) := by
  have hshape := get_nearest_zipcodes_zip_shape location country_code w
  have hex : ∃ ss : List String, ss.Nodup ∧ (∀ s ∈ ss, pyStrIsDigit s = true) ∧
      (get_nearest_zipcodes location country_code w).zipcodes =
        (ss.map pyDigitsToInt).take 5 := by
    rcases hshape with h | ⟨col, _, h⟩
    · exact ⟨[], List.nodup_nil, by simp, by simp [h]⟩
    · refine ⟨(pandasUnique col).filter pyStrIsDigit, ?_, ?_, h⟩
      · exact (pandasUnique_nodup col).filter _
      · intro s hs
        exact (List.mem_filter.mp hs).2
  refine ⟨hex, ?_, ?_, get_nearest_zipcodes_geocode_none location country_code w⟩
  · rcases hex with ⟨ss, _, _, h⟩
    rw [h]
    exact le_trans (List.length_take_le 5 _) le_rfl
  · intro z hz
    rcases hex with ⟨ss, _, _, h⟩
    rw [h] at hz
    have hz' := List.mem_of_mem_take hz
    rcases List.mem_map.mp hz' with ⟨s, _, rfl⟩
    exact pyDigitsToInt_nonneg s

/-- Witness for C9's amended claim at a concrete input: at most five zip
codes come back and each is non-negative. -/
theorem C9_length_nonneg_and_failure_witness :
    (get_nearest_zipcodes (some "Anytown") (some "us") worldLeadingZero).zipcodes.length ≤ 5 :=
  (C9_length_nonneg_and_failure (some "Anytown") (some "us") worldLeadingZero).2.1

/-! ## Claim C8 -/

/-- C8: tool functions do not mutate their list argument: whenever
`get_poverty_levels` or `get_mobile_clinic_deployments` returns, the caller's
`zipcodes` list object is exactly the input list (the bodies only read it:
comprehension, `join`, query parameter), and the embedding threads no other
mutable state. -/
theorem C8_no_argument_mutation (zipcodes : List Int) (w : World) :
    (∀ r, get_poverty_levels zipcodes w = .ok r → r.zipcodesAfter = zipcodes) ∧
    (∀ r, get_mobile_clinic_deployments zipcodes w = .ok r → r.zipcodesAfter = zipcodes) := by
  constructor
  · intro r h
    unfold get_poverty_levels at h
    split at h
    · cases h; rfl
    · split at h
      · cases h; rfl
      · split at h
        · cases h; rfl
        · cases h
  · intro r h
    unfold get_mobile_clinic_deployments at h
    split at h
    · cases h; rfl
    · split at h
      · cases h
      · split at h
        · cases h; rfl
        · cases h; rfl

/-- Witness for C8 at a concrete input: the returned run of
`get_poverty_levels` leaves the argument list `[90210]` unchanged. -/
theorem C8_no_argument_mutation_witness :
    ({ output := pyReprPovertyOutput (povertySentinelDict [90210])
     , calls := []
     , zipcodesAfter := [90210] } : PovertyRun).zipcodesAfter = [90210] :=
  (C8_no_argument_mutation [90210] worldBase).1 _ (by decide)

/-! ## Claim C5: amended -/

/-- C5 (amended): the tool functions are synchronous and retain no state
between calls — each one is a function of its arguments *and* the external
inputs it consults — but the result is not a function of the arguments
alone: `get_poverty_levels` reads `CENSUS_API_KEY` and the Census response,
`get_nearest_zipcodes` reads the ipinfo, geocoder and pgeocode responses
(see the counterexample for the dependence). -/
theorem C5_deterministic_given_world :
    (∀ (zipcodes : List Int) (w1 w2 : World),
      w1.censusApiKey = w2.censusApiKey →
      w1.censusResponse = w2.censusResponse →
      get_poverty_levels zipcodes w1 = get_poverty_levels zipcodes w2) ∧
    (∀ (location country_code : Option String) (w1 w2 : World),
      w1.ipinfoResponse = w2.ipinfoResponse →
      w1.geocodeResult = w2.geocodeResult →
      w1.queryLocationPostalCodes = w2.queryLocationPostalCodes →
      get_nearest_zipcodes location country_code w1 =
        get_nearest_zipcodes location country_code w2) := by
  constructor
  · intro zipcodes w1 w2 h1 h2
    have hbody : povertyTryBody w1 = povertyTryBody w2 := by
      unfold povertyTryBody
      rw [h2]
    unfold get_poverty_levels
    rw [h1, hbody]
  · intro location country_code w1 w2 h1 h2 h3
    unfold get_nearest_zipcodes nearestBody get_location_from_ip
    rw [h1, h2, h3]

/-- A world identical to `worldBase` on everything `get_poverty_levels`
reads, but with the BigQuery library absent. -/
def worldNoBigquery : World := { worldBase with bigqueryInstalled := false }

/-- Witness for C5's amended claim: two worlds agreeing on the Census key
and response (but differing elsewhere) give identical poverty results. -/
theorem C5_deterministic_given_world_witness :
    get_poverty_levels [90210] worldBase = get_poverty_levels [90210] worldNoBigquery :=
  C5_deterministic_given_world.1 [90210] worldBase worldNoBigquery rfl rfl

/-! ## Claim C2: amended -/

/-- C2 (amended): `get_nearest_zipcodes` catches every exception of its body
and converts it to the empty output; `get_poverty_levels` converts its
anticipated failures (`requests.RequestException`, `ValueError`,
`IndexError`) to an empty-mapping output and can only propagate exception
kinds outside that tuple (e.g. a `TypeError` from `int(None)` on a null
geography field); `get_air_quality_by_zipcode` and
`get_mobile_clinic_deployments` construct `bigquery.Client()` *before* their
`try` blocks, so a failure there propagates to the caller, while failures of
the query inside the `try` are converted to a message string (see the
counterexample for the propagation). -/
theorem C2_exception_conversion :
    (∀ (location country_code : Option String) (w : World) (e : PyExn),
      (nearestBody location w).1 = .exn e →
      get_nearest_zipcodes location country_code w =
        { zipcodes := [], output := pyReprNearestOutput []
        , calls := (nearestBody location w).2 }) ∧
    (∀ (zipcodes : List Int) (w : World) (e : PyExn),
      get_poverty_levels zipcodes w = .exn e → povertyCaught e = false) ∧
    (∀ (zipcode : Int) (w : World) (e : PyExn),
      w.bigqueryInstalled = true → w.pgeocodeInit = .ok () →
      w.zipInfo.empty = false → w.clientInit = .exn e →
      get_air_quality_by_zipcode zipcode w = .exn e) ∧
    (∀ (zipcodes : List Int) (w : World) (e : PyExn),
      w.bigqueryInstalled = true → w.clientInit = .ok () →
      w.clinicQueryResult = .exn e →
      get_mobile_clinic_deployments zipcodes w =
        .ok { output := "An error occurred while querying BigQuery: " ++ e.msg
            , zipcodesAfter := zipcodes }) := by
  refine ⟨?_, ?_, ?_, ?_⟩
  · intro location country_code w e h
    unfold get_nearest_zipcodes
    rcases hb : nearestBody location w with ⟨res, calls⟩
    rw [hb] at h
    cases res with
    | ok zs => cases h
    | exn e' => rfl
  · intro zipcodes w e h
    unfold get_poverty_levels at h
    split at h
    · cases h
    · split at h
      · cases h
      · split at h
        · cases h
        · rename_i hc
          cases h
          simpa using hc
  · intro zipcode w e hbq hpg hempty hclient
    unfold get_air_quality_by_zipcode
    rw [hbq, hpg, hempty, hclient]
    rfl
  · intro zipcodes w e hbq hclient hquery
    unfold get_mobile_clinic_deployments
    rw [hbq, hclient, hquery]
    rfl

/-- A world in which the deployments query raises inside the `try` block. -/
def worldClinicFail : World :=
  { worldBase with clinicQueryResult := .exn (.otherError "boom") }

/-- Witness for C2's amended claim: a query failure inside the `try` block of
`get_mobile_clinic_deployments` is converted to a message string. -/
theorem C2_exception_conversion_witness :
    get_mobile_clinic_deployments [90210] worldClinicFail =
      .ok { output := "An error occurred while querying BigQuery: boom"
          , zipcodesAfter := [90210] } :=
  C2_exception_conversion.2.2.2 [90210] worldClinicFail (.otherError "boom") rfl rfl rfl

/-! ## Claim C3: amended -/

/-- C3 (amended): each tool's successful return value is the string
serialization of its declared output model and each failure return value is a
plain string — but the serialization is JSON (`model_dump_json()`) only for
`get_air_quality_by_zipcode`; `get_poverty_levels`, `get_nearest_zipcodes`
and `get_mobile_clinic_deployments` return `str(model_dump())`, a Python
`repr` that is not in general parseable as JSON (see the counterexample). -/
theorem C3_serialization_shapes :
    (∀ (zipcodes : List Int) (w : World) (r : PovertyRun),
      get_poverty_levels zipcodes w = .ok r →
      ∃ d, r.output = pyReprPovertyOutput d) ∧
    (∀ (location country_code : Option String) (w : World),
      ∃ zs, (get_nearest_zipcodes location country_code w).output =
        pyReprNearestOutput zs) ∧
    (∀ (zipcode : Int) (w : World) (row : AqiRow) (rest : List AqiRow),
      w.bigqueryInstalled = true → w.pgeocodeInit = .ok () →
      w.zipInfo.empty = false → w.clientInit = .ok () →
      w.aqiQueryResult = .ok (row :: rest) →
      get_air_quality_by_zipcode zipcode w = .ok (airQualityJson row)) ∧
    (jsonParse (airQualityJson
      { date_local := "2024-01-15", aqi := 42
      , defining_parameter := "PM2.5" })).isSome = true := by
  refine ⟨?_, ?_, ?_, ?_⟩
  · intro zipcodes w r h
    unfold get_poverty_levels at h
    split at h
    · cases h
      exact ⟨povertySentinelDict zipcodes, rfl⟩
    · split at h
      · cases h
        exact ⟨_, rfl⟩
      · split at h
        · cases h
          exact ⟨[], rfl⟩
        · cases h
  · intro location country_code w
    unfold get_nearest_zipcodes
    rcases nearestBody location w with ⟨res, calls⟩
    cases res with
    | ok zs => exact ⟨zs, rfl⟩
    | exn e => exact ⟨[], rfl⟩
  · intro zipcode w row rest hbq hpg hempty hclient hq
    unfold get_air_quality_by_zipcode
    rw [hbq, hpg, hempty, hclient, hq]
    rfl
  · decide

/-- A world in which the AQI query answers with one row. -/
def worldAqi : World :=
  { worldBase with
      aqiQueryResult := .ok
        [{ date_local := "2024-01-15", aqi := 42, defining_parameter := "PM2.5" }] }

/-- Witness for C3's amended claim: a successful AQI run returns the
pydantic JSON serialization of its one result row. -/
theorem C3_serialization_shapes_witness :
    get_air_quality_by_zipcode 90210 worldAqi =
      .ok (airQualityJson
        { date_local := "2024-01-15", aqi := 42, defining_parameter := "PM2.5" }) :=
  C3_serialization_shapes.2.2.1 90210 worldAqi _ [] rfl rfl rfl rfl rfl

/-! ## Claim C7 -/

set_option maxRecDepth 40000 in
/-- C7: in both modules, the health-insights pipeline is the
`SequentialAgent` over exactly the three sub-agents
`data_structuring_agent`, `researcher_agent`, `insights_creator_agent`, in
that order; the first two write their outputs to the shared state keys
`structured_analysis` and `research_findings`, and the instructions of the
downstream agents read those keys back via `\x7b...\x7d` state placeholders. -/
theorem C7_sequential_pipeline :
    HealthAdvisorInsights.insights_agent.sub_agents =
      [HealthAdvisorInsights.data_structuring_agent,
       HealthAdvisorInsights.researcher_agent,
       HealthAdvisorInsights.insights_creator_agent] ∧
    HealthAdvisorInsights.insights_agent.sub_agents.length = 3 ∧
    HealthAdvisorInsights.data_structuring_agent.output_key = some "structured_analysis" ∧
    HealthAdvisorInsights.researcher_agent.output_key = some "research_findings" ∧
    HealthAdvisorInsights.insights_creator_agent.output_key = none ∧
    strContainsSub HealthAdvisorInsights.researcher_agent.instruction
      "\x7bstructured_analysis\x7d" = true ∧
    strContainsSub HealthAdvisorInsights.insights_creator_agent.instruction
      "\x7bstructured_analysis\x7d" = true ∧
    strContainsSub HealthAdvisorInsights.insights_creator_agent.instruction
      "\x7bresearch_findings\x7d" = true ∧
    InsightsTop.insights_agent.sub_agents =
      [InsightsTop.data_structuring_agent,
       InsightsTop.researcher_agent,
       InsightsTop.insights_creator_agent] ∧
    InsightsTop.insights_agent.sub_agents.length = 3 ∧
    InsightsTop.data_structuring_agent.output_key = some "structured_analysis" ∧
    InsightsTop.researcher_agent.output_key = some "research_findings" ∧
    InsightsTop.insights_creator_agent.output_key = none ∧
    strContainsSub InsightsTop.researcher_agent.instruction
      "\x7bstructured_analysis\x7d" = true ∧
    strContainsSub InsightsTop.insights_creator_agent.instruction
      "\x7bstructured_analysis\x7d" = true ∧
    strContainsSub InsightsTop.insights_creator_agent.instruction
      "\x7bresearch_findings\x7d" = true := by
  refine ⟨rfl, rfl, rfl, rfl, rfl, ?_, ?_, ?_, rfl, rfl, rfl, rfl, rfl, ?_, ?_, ?_⟩
  · decide
  · decide
  · decide
  · decide
  · decide
  · decide
